import Mathlib

/-!
Verification development for the Paris rental-pricing engine
(`computations.py`, `utils/constants.py`, `utils/helpers.py`).

The Python code is shallowly embedded: profiles are partial maps from
string keys to dynamic values, pandas one-row DataFrames are a column
list together with a valuation, the three pickled regression models are
abstract functions from a row to a real raw output, and the numpy
post-processing (`expm1`, `round`, `int`) is modelled over the reals.
-/

/-- A dynamic Python value as it occurs in user-profile dictionaries. -/
inductive PyVal where
  | none
  | bool (b : Bool)
  | int (n : ℤ)
  | str (s : String)
  | list (xs : List String)
deriving DecidableEq, Repr

/-- A user profile: a dictionary from string keys to Python values.
`Option.none` means the key is absent from the dictionary. -/
def Profile := String → Option PyVal

/-- Python `bool(v)` truthiness. -/
def pyBool : PyVal → Bool
  | .none => false
  | .bool b => b
  | .int n => !(n == 0)
  | .str s => !(s == "")
  | .list xs => !(xs.isEmpty)

/-- Accumulate the numeric value of a list of decimal digit characters. -/
def digitsValAux : ℕ → List Char → Option ℕ
  | acc, [] => some acc
  | acc, c :: rest =>
    if c.isDigit then digitsValAux (acc * 10 + (c.toNat - 48)) rest else Option.none

/-- Parse a nonempty all-digit character list as a natural number. -/
def digitsVal (l : List Char) : Option ℕ :=
  match l with
  | [] => Option.none
  | _ :: _ => digitsValAux 0 l

/-- Parse a string as a Python integer literal (optional sign, digits). -/
def pyIntOfString (s : String) : Option ℤ :=
  match s.data with
  | '-' :: rest => (digitsVal rest).map (fun n => -(n : ℤ))
  | '+' :: rest => (digitsVal rest).map (fun n => (n : ℤ))
  | l => (digitsVal l).map (fun n => (n : ℤ))

/-- Python `int(v)`: succeeds on ints, bools and integer-looking strings,
raises `TypeError`/`ValueError` otherwise. -/
def pyInt : PyVal → Except String ℤ
  | .int n => .ok n
  | .bool b => .ok (if b then 1 else 0)
  | .str s =>
    match pyIntOfString s with
    | some n => .ok n
    | Option.none => .error "ValueError: invalid literal for int()"
  | .none => .error "TypeError: int() argument must not be None"
  | .list _ => .error "TypeError: int() argument must not be a list"

/-- `user_profile.get("amenities", []) or []` followed by iteration:
falsy values yield the empty list, a string is iterated character by
character, and non-iterable truthy values raise `TypeError`. -/
def getAmenities (u : Profile) : Except String (List String) :=
  match (u "amenities").getD .none with
  | .list xs => .ok xs
  | .none => .ok []
  | .bool b => if b then .error "TypeError: bool is not iterable" else .ok []
  | .int n => if n == 0 then .ok [] else .error "TypeError: int is not iterable"
  | .str s => .ok (s.data.map (fun c => String.mk [c]))

/-- Replace occurrences of `pat` by `rep` in `l`, scanning left to right;
`fuel` bounds the recursion (call with `fuel = l.length`). -/
def replaceAllAux (pat rep : List Char) : ℕ → List Char → List Char
  | 0, l => l
  | _ + 1, [] => []
  | n + 1, c :: rest =>
    if pat.isPrefixOf (c :: rest) && !(pat.isEmpty) then
      rep ++ replaceAllAux pat rep n ((c :: rest).drop pat.length)
    else
      c :: replaceAllAux pat rep n rest

/-- Python `s.replace(pat, rep)` for a nonempty pattern. -/
def pyReplace (s pat rep : String) : String :=
  String.mk (replaceAllAux pat.data rep.data s.data.length s.data)

/-- Python `s.rstrip("_")`. -/
def pyRstripUnderscore (s : String) : String :=
  String.mk ((s.data.reverse.dropWhile (fun c => c == '_')).reverse)

/-- Python `s.strip()` (whitespace on both ends). -/
def pyStrip (s : String) : String :=
  String.mk ((s.data.dropWhile Char.isWhitespace).reverse.dropWhile
    Char.isWhitespace |>.reverse)

/-- Worker for Python `str.title`: upper-case a letter that follows a
non-letter, lower-case a letter that follows a letter. -/
def titleAux : Bool → List Char → List Char
  | _, [] => []
  | prevAlpha, c :: rest =>
    (if c.isAlpha then (if prevAlpha then c.toLower else c.toUpper) else c)
      :: titleAux c.isAlpha rest

/-- Python `s.title()`. -/
def pyTitle (s : String) : String := String.mk (titleAux false s.data)

/-- Python `s.startswith(pre)`. -/
def pyStartsWith (s pre : String) : Bool := pre.data.isPrefixOf s.data

/-- `clean_amenity_name` from `utils/helpers.py`: strip the
`amenity__` marker, drop trailing underscores, turn underscores into
spaces, fix one known mis-encoded dash, then strip and title-case. -/
def clean_amenity_name (model_column : String) : String :=
  let name := pyReplace model_column "amenity__" ""
  let name := pyRstripUnderscore name
  let name := pyReplace name "_" " "
  let name := pyReplace name "u2013" "â€“"
  pyTitle (pyStrip name)

/-- Python dict assignment `d[k] = v`: overwrite in place if the key
exists (keeping its position), otherwise append. -/
def dictInsert (d : List (String × String)) (k v : String) :
    List (String × String) :=
  if d.any (fun p => p.1 == k) then
    d.map (fun p => if p.1 == k then (k, v) else p)
  else
    d ++ [(k, v)]

/-- Python dict lookup `d.get(k)`. -/
def dictLookup (d : List (String × String)) (k : String) : Option String :=
  (d.find? (fun p => p.1 == k)).map (fun p => p.2)

/-- `build_amenity_maps` from `utils/helpers.py`: filter the feature
list to `amenity__`-prefixed columns and build the two dictionaries
`label_to_col` and `col_to_label` by comprehension (duplicate keys
overwrite, last write wins). -/
def build_amenity_maps (feature_list : List String) :
    List (String × String) × List (String × String) :=
  let amenity_cols := feature_list.filter (fun c => pyStartsWith c "amenity__")
  let label_to_col :=
    amenity_cols.foldl (fun d c => dictInsert d (clean_amenity_name c) c) []
  let col_to_label :=
    amenity_cols.foldl (fun d c => dictInsert d c (clean_amenity_name c)) []
  (label_to_col, col_to_label)

/-- `ARRONDISSEMENT_MAP` from `utils/constants.py` (insertion order). -/
def ARRONDISSEMENT_MAP : List (ℤ × String) :=
  [(1, "Arrondissement_1er"), (2, "Arrondissement_2e"),
   (3, "Arrondissement_3e"), (4, "Arrondissement_4e"),
   (5, "Arrondissement_5e"), (6, "Arrondissement_6e"),
   (7, "Arrondissement_7e"), (8, "Arrondissement_8e"),
   (9, "Arrondissement_9e"), (10, "Arrondissement_10e"),
   (11, "Arrondissement_11e"), (12, "Arrondissement_12e"),
   (13, "Arrondissement_13e"), (14, "Arrondissement_14e"),
   (15, "Arrondissement_15e"), (16, "Arrondissement_16e"),
   (17, "Arrondissement_17e"), (18, "Arrondissement_18e"),
   (19, "Arrondissement_19e"), (20, "Arrondissement_20e")]

/-- `INSEE_MAP` from `utils/constants.py`. -/
def INSEE_MAP : List (ℤ × ℤ) :=
  [(1, 75101), (2, 75102), (3, 75103), (4, 75104), (5, 75105),
   (6, 75106), (7, 75107), (8, 75108), (9, 75109), (10, 75110),
   (11, 75111), (12, 75112), (13, 75113), (14, 75114), (15, 75115),
   (16, 75116), (17, 75117), (18, 75118), (19, 75119), (20, 75120)]

/-- `ARRONDISSEMENT_COLUMNS = list(ARRONDISSEMENT_MAP.values())`. -/
def ARRONDISSEMENT_COLUMNS : List String := ARRONDISSEMENT_MAP.map (fun p => p.2)

/-- `MEDIAN_ARRONDISSEMENT` from `utils/constants.py`. -/
def MEDIAN_ARRONDISSEMENT : ℤ := 10

/-- `ARRONDISSEMENT_MAP.get(n)`. -/
def arrLookup (n : ℤ) : Option String :=
  (ARRONDISSEMENT_MAP.find? (fun p => p.1 == n)).map (fun p => p.2)

/-- `INSEE_MAP[n]` with a default for the (unreachable) missing case. -/
def inseeLookup (n : ℤ) : ℤ :=
  ((INSEE_MAP.find? (fun p => p.1 == n)).map (fun p => p.2)).getD 0

/-- The four canonical room types iterated by the nightly builder. -/
def roomTypes : List String :=
  ["Entire home/apt", "Hotel room", "Private room", "Shared room"]

/-- The hardcoded renting schema from `build_renting_feature_df`. -/
def rent_features : List String :=
  ["Nombre de pièces principales",
   "Arrondissement_10e", "Arrondissement_11e", "Arrondissement_12e",
   "Arrondissement_13e", "Arrondissement_14e", "Arrondissement_15e",
   "Arrondissement_16e", "Arrondissement_17e", "Arrondissement_18e",
   "Arrondissement_19e", "Arrondissement_1er", "Arrondissement_20e",
   "Arrondissement_2e", "Arrondissement_3e", "Arrondissement_4e",
   "Arrondissement_5e", "Arrondissement_6e", "Arrondissement_7e",
   "Arrondissement_8e", "Arrondissement_9e",
   "Type de locationom_meublé",
   "Type de locationom_non meublé"]

/-- A one-row pandas DataFrame (equally, the `feat` dict): an ordered
column list and a valuation of every column name. -/
structure DF where
  cols : List String
  val : String → PyVal

/-- Pandas `df[c] = v`: overwrite if the column exists, otherwise
append a new column on the right. -/
def DF.setCol (d : DF) (c : String) (v : PyVal) : DF :=
  ⟨if c ∈ d.cols then d.cols else d.cols ++ [c],
   fun c' => if c' = c then v else d.val c'⟩

/-- Guarded assignment `if c in df: df[c] = v` (never adds a column). -/
def DF.setColG (d : DF) (c : String) (v : PyVal) : DF :=
  if c ∈ d.cols then ⟨d.cols, fun c' => if c' = c then v else d.val c'⟩ else d

/-- The row actually passed to a model: the columns in order, each
paired with its value. -/
def DF.row (d : DF) : List (String × PyVal) :=
  d.cols.map (fun c => (c, d.val c))

/-- Unguarded zeroing loop `for c in cs: df[c] = 0`. -/
def zeroCols (d : DF) (cs : List String) : DF :=
  cs.foldl (fun d c => d.setCol c (.int 0)) d

/-- Guarded zeroing loop `for c in cs: if c in df: df[c] = 0`. -/
def zeroColsG (d : DF) (cs : List String) : DF :=
  cs.foldl (fun d c => d.setColG c (.int 0)) d

/-- A raw model: a function from a one-row DataFrame (as its row) to
the scalar returned by `model.predict(df)[0]`. -/
def Model := List (String × PyVal) → ℝ

/-- The five scalar overlays of `build_airbnb_feature_df`: start from
the all-zero schema dict and set the numeric inputs. -/
def airbnbBasics (schema : List String)
    (superhost listings identity baths beds : ℤ) : DF :=
  (((((⟨schema, fun _ => .int 0⟩ : DF).setCol
    "host_is_superhost" (.int superhost)).setCol
    "host_listings_count" (.int listings)).setCol
    "host_identity_verified" (.int identity)).setCol
    "bathrooms_text" (.int baths)).setCol "bedrooms" (.int beds)

/-- The arrondissement one-hot step of `build_airbnb_feature_df`. -/
def airbnbArrStep (d : DF) (arrNum : ℤ) : DF :=
  match arrLookup arrNum with
  | some c => d.setColG c (.int 1)
  | Option.none => d

/-- The room-type one-hot loop of `build_airbnb_feature_df`. -/
def airbnbRoomStep (d : DF) (roomType : PyVal) : DF :=
  roomTypes.foldl
    (fun f rt => f.setColG ("room_" ++ rt)
      (.int (if roomType = .str rt then 1 else 0))) d

/-- The amenity many-hot loop of `build_airbnb_feature_df`. -/
def airbnbAmenStep (schema : List String) (d : DF)
    (labels : List String) : DF :=
  labels.foldl
    (fun f lab =>
      match dictLookup (build_amenity_maps schema).1 lab with
      | some mc => f.setColG mc (.int 1)
      | Option.none => f) d

/-- The full pure feature construction of `build_airbnb_feature_df`
once every profile value has been coerced. -/
def airbnbCore (schema : List String)
    (superhost listings identity baths beds arrNum : ℤ)
    (roomType : PyVal) (labels : List String) : DF :=
  airbnbAmenStep schema
    (airbnbRoomStep
      (airbnbArrStep
        (airbnbBasics schema superhost listings identity baths beds) arrNum)
      roomType) labels

/-- The value part of `build_airbnb_feature_df` from `computations.py`:
initialize every schema column to 0, overlay the numeric scalars, the
arrondissement / room-type one-hots and the amenity many-hot.
`schema` stands for `airbnb_features` (the pickled model's declared
input columns). -/
def airbnbFeatFun (schema : List String) (u : Profile) :
    Except String (String → PyVal) := do
  let superhost : ℤ := if pyBool ((u "host_is_superhost").getD (.bool false)) then 1 else 0
  let listings ← pyInt ((u "host_listings_count").getD (.int 0))
  let identity : ℤ := if pyBool ((u "host_identity_verified").getD (.bool false)) then 1 else 0
  let baths ← pyInt ((u "bathrooms").getD (.int 1))
  let beds ← pyInt ((u "bedrooms").getD (.int 1))
  let arrNum ← pyInt ((u "arrondissement").getD (.int 1))
  let roomType := (u "room_type").getD (.str "Entire home/apt")
  let labels ← getAmenities u
  .ok (airbnbCore schema superhost listings identity baths beds arrNum
    roomType labels).val

/-- `build_airbnb_feature_df(user_profile)`: emit the feature values in
exact schema order as a one-row DataFrame. -/
def build_airbnb_feature_df (schema : List String) (u : Profile) :
    Except String DF :=
  (airbnbFeatFun schema u).map (fun f => ⟨schema, f⟩)

/-- The Airbnb feature valuation, with an all-zero fallback when the
builder raised. -/
def airbnbFeatOr (schema : List String) (u : Profile) : String → PyVal :=
  match airbnbFeatFun schema u with
  | .ok f => f
  | .error _ => fun _ => .int 0

/-- The Airbnb feature DataFrame, with an all-zero fallback when the
builder raised. Its columns are the schema by construction. -/
def airbnbBuildOr (schema : List String) (u : Profile) : DF :=
  ⟨schema, airbnbFeatOr schema u⟩

/-- The value part of `build_renting_feature_df` from `computations.py`. -/
def rentFeatFun (u : Profile) : Except String (String → PyVal) := do
  let feat0 : DF := ⟨rent_features, fun _ => .int 0⟩
  let arrNum ← pyInt ((u "arrondissement").getD (.int 1))
  let f1 :=
    match arrLookup arrNum with
    | some c => feat0.setColG c (.int 1)
    | Option.none => feat0
  let f2 := f1.setCol "Nombre de pièces principales"
    ((u "Number of rooms renting").getD .none)
  let furnished := pyBool ((u "furnished").getD (.bool false))
  let f3 := (f2.setCol "Type de locationom_meublé"
      (.int (if furnished then 1 else 0))).setCol
      "Type de locationom_non meublé" (.int (if furnished then 0 else 1))
  .ok f3.val

/-- `build_renting_feature_df(user_profile)`. -/
def build_renting_feature_df (u : Profile) : Except String DF :=
  (rentFeatFun u).map (fun f => ⟨rent_features, f⟩)

/-- The renting feature DataFrame, with an all-zero fallback when the
builder raised. -/
def rentBuildOr (u : Profile) : DF :=
  ⟨rent_features,
   match rentFeatFun u with
   | .ok f => f
   | .error _ => fun _ => .int 0⟩

/-- Is an `Except` computation successful? -/
def okB {α : Type} : Except String α → Bool
  | .ok _ => true
  | .error _ => false

/-- `np.expm1(x)`, the base-e inverse log transform `exp(x) - 1`. -/
noncomputable def np_expm1 (x : ℝ) : ℝ := Real.exp x - 1

open Classical in
/-- Python `int(x)` on a float: truncation toward zero. -/
noncomputable def pyTrunc (x : ℝ) : ℤ := if 0 ≤ x then ⌊x⌋ else ⌈x⌉

open Classical in
/-- Python `round(x)` to an integer: round half to even. -/
noncomputable def pyRound (x : ℝ) : ℤ :=
  if Int.fract x < 1 / 2 then ⌊x⌋
  else if 1 / 2 < Int.fract x then ⌊x⌋ + 1
  else if Even ⌊x⌋ then ⌊x⌋ else ⌊x⌋ + 1

/-- Python `round(x, 4)`: round to four decimal places. -/
noncomputable def pyRound4 (x : ℝ) : ℝ := (pyRound (x * 10000) : ℝ) / 10000

/-- The nightly-price post-processing of `run_computations_airbnb`:
`int(np.expm1(round(log_pred, 4)))` applied to the raw model output. -/
noncomputable def nightlyFromRaw (x : ℝ) : ℤ := pyTrunc (np_expm1 (pyRound4 x))

/-- The cleaning-cost post-processing of `run_computations_airbnb`:
`int(cleaning_pred)` applied to the raw model output. -/
noncomputable def cleaningFromRaw (x : ℝ) : ℤ := pyTrunc x

/-- The monthly-rent post-processing of `run_computations_renting`:
`int(pred)` applied to the raw model output. -/
noncomputable def rentFromRaw (x : ℝ) : ℤ := pyTrunc x

/-- `int(np.expm1(log_pred))`, the price post-processing used inside
`predict_all_arrondissement_prices` and `calculate_price_impact_kpis`
(no 4-decimal pre-rounding there). -/
noncomputable def priceOfLog (x : ℝ) : ℤ := pyTrunc (np_expm1 x)

/-- Modelled from the spec: `predict_nightly_price` as §4.3 words it,
"applies the inverse (`exp(x) - 1`), rounds to nearest integer".
Stated for the refinement comparison of claim C1 only; the code's
post-processing is `nightlyFromRaw`. -/
noncomputable def specNightlyFromRaw (x : ℝ) : ℤ := round (Real.exp x - 1)

/-- `run_computations_airbnb`: build the feature row, score the nightly
model through the inverse log transform, then score the cleaning model
on the two-column `Bedroom`/`Bathroom` sub-frame. Returns the pair
(nightly price, cleaning cost) that the code stores in session state. -/
noncomputable def run_computations_airbnb (priceM cleanM : Model)
    (schema : List String) (u : Profile) : Except String (ℤ × ℤ) := do
  let df ← build_airbnb_feature_df schema u
  if "bedrooms" ∈ df.cols ∧ "bathrooms_text" ∈ df.cols then
    let nightly := nightlyFromRaw (priceM df.row)
    let dfClean : List (String × PyVal) :=
      [("Bedroom", df.val "bedrooms"), ("Bathroom", df.val "bathrooms_text")]
    let cleaning := cleaningFromRaw (cleanM dfClean)
    .ok (nightly, cleaning)
  else
    .error "KeyError"

/-- `run_computations_renting`: build the renting feature row and score
the renting model directly. Returns the monthly rent the code stores in
session state. -/
noncomputable def run_computations_renting (rentM : Model) (u : Profile) :
    Except String ℤ := do
  let df ← build_renting_feature_df u
  .ok (rentFromRaw (rentM df.row))

/-- One output row of `predict_all_arrondissement_prices`. -/
structure SweepRow where
  code : String
  price : ℤ
  number : ℤ
deriving DecidableEq, Repr

/-- Fallback row (never observed on the success path). -/
def dummySweepRow : SweepRow := ⟨"", 0, 0⟩

/-- The per-arrondissement re-encoding of the sweep loop body: zero all
arrondissement columns (guarded), then set the target column (guarded). -/
def sweepVec (base : DF) (c : String) : DF :=
  (zeroColsG base ARRONDISSEMENT_COLUMNS).setColG c (.int 1)

/-- `predict_all_arrondissement_prices(user_data)`: one row per entry of
`ARRONDISSEMENT_MAP`, each scored on the re-encoded one-hot variant. -/
noncomputable def predict_all_arrondissement_prices (priceM : Model)
    (schema : List String) (u : Profile) : Except String (List SweepRow) := do
  let base ← build_airbnb_feature_df schema u
  .ok (ARRONDISSEMENT_MAP.map (fun nc =>
    { code := toString (inseeLookup nc.1)
      price := priceOfLog (priceM (sweepVec base nc.2).row)
      number := nc.1 }))

/-- The sweep's output rows, with an empty fallback when the builder
raised. -/
noncomputable def predictAllOr (priceM : Model) (schema : List String)
    (u : Profile) : List SweepRow :=
  match predict_all_arrondissement_prices priceM schema u with
  | .ok rows => rows
  | .error _ => []

/-- The KPI record returned by `calculate_price_impact_kpis`. -/
structure KPI where
  location_impact : ℤ
  quality_impact : ℤ
  median_location_price : ℤ
  baseline_price : ℤ
deriving DecidableEq, Repr

/-- `ARRONDISSEMENT_MAP.get(MEDIAN_ARRONDISSEMENT)`, i.e. the column of
the fixed reference arrondissement. -/
def medianCol : String := (arrLookup MEDIAN_ARRONDISSEMENT).getD ""

/-- `calculate_price_impact_kpis(user_data, current_predicted_price)`:
score the median-location counterfactual and the neutral-quality
baseline, then return the two deltas together with both counterfactual
prices. -/
noncomputable def calculate_price_impact_kpis (priceM : Model)
    (schema : List String) (u : Profile) (p : ℤ) : Except String KPI := do
  let base ← build_airbnb_feature_df schema u
  let dfMedian := (zeroCols base ARRONDISSEMENT_COLUMNS).setCol medianCol (.int 1)
  let medianPrice := priceOfLog (priceM dfMedian.row)
  let dfBase0 := (((dfMedian.setCol "host_is_superhost" (.int 0)).setCol
      "host_listings_count" (.int 1)).setCol
      "bedrooms" (.int 1)).setCol "bathrooms_text" (.int 1)
  let dfBase := zeroColsG dfBase0 ((build_amenity_maps schema).1.map (fun p => p.2))
  let basePrice := priceOfLog (priceM dfBase.row)
  .ok ⟨p - medianPrice, medianPrice - basePrice, medianPrice, basePrice⟩

/-- The median-location counterfactual as claim C3 words it: the user's
vector with all arrondissement one-hot columns zeroed and only the
reference arrondissement's column set to 1, all other features
unchanged. -/
def medianLocationDF (d : DF) : DF :=
  ⟨d.cols, fun c =>
    if c = medianCol then .int 1
    else if c ∈ ARRONDISSEMENT_COLUMNS then .int 0
    else d.val c⟩

/-- The neutral-quality baseline as claim C3 words it: the
median-location vector with superhost 0, listings 1, bedrooms 1,
bathrooms 1 and every amenity-catalog column zeroed. -/
def baselineDF (schema : List String) (d : DF) : DF :=
  ⟨(medianLocationDF d).cols, fun c =>
    if c ∈ (build_amenity_maps schema).1.map (fun p => p.2) then .int 0
    else if c = "bathrooms_text" then .int 1
    else if c = "bedrooms" then .int 1
    else if c = "host_listings_count" then .int 1
    else if c = "host_is_superhost" then .int 0
    else (medianLocationDF d).val c⟩

/-- `airbnb_confidence_interval(prediction)` from `computations.py`,
with floats modelled as rationals. -/
def airbnb_confidence_interval (prediction : ℚ) : ℚ × ℚ :=
  let rmse : ℚ :=
    if prediction < 102 then 40.20
    else if prediction < 151 then 40.44
    else if prediction < 239 then 53.07
    else 115.52
  (prediction - rmse, prediction + rmse)

/-- `renting_confidence_interval(prediction)` from `computations.py`,
with floats modelled as rationals. -/
def renting_confidence_interval (prediction : ℚ) : ℚ × ℚ :=
  let rmse : ℚ :=
    if prediction < 560.17 then 30.29
    else if prediction < 1379.23 then 87.73
    else if prediction < 2025.77 then 159.46
    else 191.43
  (prediction - rmse, prediction + rmse)

/-- The one-hot column of arrondissement `n` (empty when unmapped). -/
def arrColOf (n : ℤ) : String := (arrLookup n).getD ""

/-- A small concrete nightly schema used to instantiate the generic
theorems: the 20 arrondissement one-hots plus the five numeric columns. -/
def demoSchema : List String :=
  ARRONDISSEMENT_COLUMNS ++
  ["host_is_superhost", "host_listings_count", "host_identity_verified",
   "bathrooms_text", "bedrooms"]

/-- The empty profile: every key absent. -/
def emptyProfile : Profile := fun _ => Option.none

/-- A model that returns raw output 0 on every row. -/
def zeroModel : Model := fun _ => 0

/-- A profile that only supplies `Number of rooms renting = 3`. -/
def roomsProfile : Profile := fun k =>
  if k = "Number of rooms renting" then some (.int 3) else Option.none

/-- A profile whose arrondissement is the out-of-range integer 25 and
whose listings count is a non-numeric string. -/
def badProfile : Profile := fun k =>
  if k = "arrondissement" then some (.int 25)
  else if k = "host_listings_count" then some (.str "many")
  else Option.none

/-- A profile whose arrondissement is the out-of-range integer 25, all
other keys absent. -/
def arr25Profile : Profile := fun k =>
  if k = "arrondissement" then some (.int 25) else Option.none

/-- A profile whose arrondissement is a non-numeric string. -/
def strArrProfile : Profile := fun k =>
  if k = "arrondissement" then some (.str "center") else Option.none

/-! ### Basic lemmas about the DataFrame embedding -/

theorem DF.setCol_val (d : DF) (c : String) (v : PyVal) (c' : String) :
    (d.setCol c v).val c' = if c' = c then v else d.val c' := rfl

theorem DF.setCol_cols_of_mem {d : DF} {c : String} (v : PyVal)
    (h : c ∈ d.cols) : (d.setCol c v).cols = d.cols := by
  simp [DF.setCol, h]

theorem DF.setColG_cols (d : DF) (c : String) (v : PyVal) :
    (d.setColG c v).cols = d.cols := by
  unfold DF.setColG; split <;> rfl

theorem DF.setColG_val (d : DF) (c : String) (v : PyVal) (c' : String) :
    (d.setColG c v).val c' = if c' = c ∧ c ∈ d.cols then v else d.val c' := by
  unfold DF.setColG
  by_cases h : c ∈ d.cols
  · rw [if_pos h]
    by_cases h' : c' = c <;> simp [h, h']
  · rw [if_neg h]
    simp [h]

theorem zeroCols_val (cs : List String) (d : DF) (c' : String) :
    (zeroCols d cs).val c' = if c' ∈ cs then PyVal.int 0 else d.val c' := by
  induction cs generalizing d with
  | nil => simp [zeroCols]
  | cons c cs ih =>
    show (zeroCols (d.setCol c (.int 0)) cs).val c' = _
    rw [ih]
    by_cases h1 : c' ∈ cs
    · simp [h1, List.mem_cons]
    · by_cases h2 : c' = c <;> simp [h1, h2, DF.setCol_val, List.mem_cons]

theorem zeroCols_cols (cs : List String) (d : DF)
    (h : ∀ c ∈ cs, c ∈ d.cols) : (zeroCols d cs).cols = d.cols := by
  induction cs generalizing d with
  | nil => rfl
  | cons c cs ih =>
    have hc : c ∈ d.cols := h c (List.mem_cons_self c cs)
    have hcols : (d.setCol c (.int 0)).cols = d.cols :=
      DF.setCol_cols_of_mem _ hc
    show (zeroCols (d.setCol c (.int 0)) cs).cols = d.cols
    rw [ih (d.setCol c (.int 0))
      (fun c' hc' => by rw [hcols]; exact h c' (List.mem_cons_of_mem _ hc')),
      hcols]

theorem zeroColsG_cols (cs : List String) (d : DF) :
    (zeroColsG d cs).cols = d.cols := by
  induction cs generalizing d with
  | nil => rfl
  | cons c cs ih =>
    show (zeroColsG (d.setColG c (.int 0)) cs).cols = d.cols
    rw [ih, DF.setColG_cols]

theorem zeroColsG_val (cs : List String) (d : DF) (c' : String) :
    (zeroColsG d cs).val c' =
      if c' ∈ cs ∧ c' ∈ d.cols then PyVal.int 0 else d.val c' := by
  induction cs generalizing d with
  | nil => simp [zeroColsG]
  | cons c cs ih =>
    show (zeroColsG (d.setColG c (.int 0)) cs).val c' = _
    rw [ih, DF.setColG_cols, DF.setColG_val]
    simp only [List.mem_cons]
    by_cases h1 : c' ∈ cs <;> by_cases h2 : c' ∈ d.cols <;>
      by_cases h3 : c' = c <;> simp_all

theorem row_congr {d1 d2 : DF} (hcols : d1.cols = d2.cols)
    (hval : ∀ c ∈ d2.cols, d1.val c = d2.val c) : d1.row = d2.row := by
  unfold DF.row
  rw [hcols]
  exact List.map_congr_left (fun c hc => by rw [hval c hc])

/-- A fold whose every step preserves the valuation at `c` preserves it
globally. -/
theorem foldl_preserve_val {α : Type} (l : List α) (step : DF → α → DF)
    (c : String) (h : ∀ d a, a ∈ l → (step d a).val c = d.val c) (d : DF) :
    (l.foldl step d).val c = d.val c := by
  induction l generalizing d with
  | nil => rfl
  | cons a l ih =>
    show (l.foldl step (step d a)).val c = d.val c
    rw [ih (fun d' a' ha' => h d' a' (List.mem_cons_of_mem _ ha')),
      h d a (List.mem_cons_self a l)]

/-- A fold whose every step preserves the column list preserves it
globally. -/
theorem foldl_preserve_cols {α : Type} (l : List α) (step : DF → α → DF)
    (h : ∀ d a, a ∈ l → (step d a).cols = d.cols) (d : DF) :
    (l.foldl step d).cols = d.cols := by
  induction l generalizing d with
  | nil => rfl
  | cons a l ih =>
    show (l.foldl step (step d a)).cols = d.cols
    rw [ih (fun d' a' ha' => h d' a' (List.mem_cons_of_mem _ ha')),
      h d a (List.mem_cons_self a l)]

/-! ### Lemmas about the Python dictionary embedding -/

theorem dictInsert_mem {d : List (String × String)} {k v : String}
    {p : String × String} (h : p ∈ dictInsert d k v) :
    p = (k, v) ∨ p ∈ d := by
  unfold dictInsert at h
  by_cases ha : d.any (fun q => q.1 == k)
  · rw [if_pos ha] at h
    rcases List.mem_map.mp h with ⟨q, hq, hqe⟩
    by_cases hqk : q.1 == k
    · left; rw [if_pos hqk] at hqe; exact hqe.symm
    · right; rw [if_neg hqk] at hqe; exact hqe ▸ hq
  · rw [if_neg ha] at h
    rcases List.mem_append.mp h with h' | h'
    · right; exact h'
    · left; simpa using h'

theorem foldl_dictInsert_mem {f g : String → String} :
    ∀ (cs : List String) (init : List (String × String))
      (p : String × String),
      p ∈ cs.foldl (fun d c => dictInsert d (f c) (g c)) init →
      p ∈ init ∨ ∃ a ∈ cs, p = (f a, g a) := by
  intro cs
  induction cs with
  | nil => intro init p h; exact Or.inl h
  | cons c cs ih =>
    intro init p h
    rcases ih (dictInsert init (f c) (g c)) p h with h' | ⟨a, ha, hpa⟩
    · rcases dictInsert_mem h' with h'' | h''
      · exact Or.inr ⟨c, List.mem_cons_self c cs, h''⟩
      · exact Or.inl h''
    · exact Or.inr ⟨a, List.mem_cons_of_mem _ ha, hpa⟩

theorem dictInsert_of_fresh {d : List (String × String)} {k : String}
    (v : String) (h : ∀ p ∈ d, p.1 ≠ k) :
    dictInsert d k v = d ++ [(k, v)] := by
  unfold dictInsert
  rw [if_neg]
  simp only [List.any_eq_true, beq_iff_eq, not_exists, not_and]
  intro p hp
  exact h p hp

theorem foldl_dictInsert_eq_map (f g : String → String) :
    ∀ (cs : List String) (init : List (String × String)),
      (cs.map f).Nodup →
      (∀ p ∈ init, ∀ c ∈ cs, p.1 ≠ f c) →
      cs.foldl (fun d c => dictInsert d (f c) (g c)) init =
        init ++ cs.map (fun c => (f c, g c)) := by
  intro cs
  induction cs with
  | nil => intro init _ _; simp
  | cons c cs ih =>
    intro init hnd hdisj
    have hins : dictInsert init (f c) (g c) = init ++ [(f c, g c)] :=
      dictInsert_of_fresh _ (fun p hp => hdisj p hp c (List.mem_cons_self c cs))
    have hnd' : (cs.map f).Nodup := (List.nodup_cons.mp hnd).2
    have hfc : f c ∉ cs.map f := (List.nodup_cons.mp hnd).1
    show (cs.foldl (fun d c => dictInsert d (f c) (g c))
        (dictInsert init (f c) (g c))) = _
    rw [hins, ih (init ++ [(f c, g c)]) hnd' ?_]
    · simp
    · intro p hp a ha
      rcases List.mem_append.mp hp with hp' | hp'
      · exact hdisj p hp' a (List.mem_cons_of_mem _ ha)
      · have hpc : p = (f c, g c) := by simpa using hp'
        rw [hpc]
        intro hcontra
        have hfa : f c = f a := hcontra
        exact hfc (hfa ▸ List.mem_map_of_mem f ha)

theorem dictLookup_label_map (cs : List String) (a : String)
    (ha : a ∈ cs) (hnd : (cs.map clean_amenity_name).Nodup) :
    dictLookup (cs.map (fun c => (clean_amenity_name c, c)))
      (clean_amenity_name a) = some a := by
  induction cs with
  | nil => cases ha
  | cons c cs ih =>
    by_cases hca : clean_amenity_name c = clean_amenity_name a
    · have hac : a = c := by
        rcases List.mem_cons.mp ha with h | h
        · exact h
        · exfalso
          exact (List.nodup_cons.mp hnd).1
            (hca ▸ List.mem_map_of_mem clean_amenity_name h)
      subst hac
      simp [dictLookup, List.find?]
    · have ha' : a ∈ cs := by
        rcases List.mem_cons.mp ha with h | h
        · exact absurd (h ▸ rfl) hca
        · exact h
      have := ih ha' (List.nodup_cons.mp hnd).2
      simp only [dictLookup, List.map_cons, List.find?] at this ⊢
      rw [show (clean_amenity_name c == clean_amenity_name a) = false by
        simpa using hca]
      exact this

theorem dictLookup_col_map (cs : List String) (a : String)
    (ha : a ∈ cs) (hnd : cs.Nodup) :
    dictLookup (cs.map (fun c => (c, clean_amenity_name c))) a =
      some (clean_amenity_name a) := by
  induction cs with
  | nil => cases ha
  | cons c cs ih =>
    by_cases hca : c = a
    · subst hca
      simp [dictLookup, List.find?]
    · have ha' : a ∈ cs := by
        rcases List.mem_cons.mp ha with h | h
        · exact absurd h.symm hca
        · exact h
      have := ih ha' (List.nodup_cons.mp hnd).2
      simp only [dictLookup, List.map_cons, List.find?] at this ⊢
      rw [show (c == a) = false by simpa using hca]
      exact this

/-! ### Lemmas about the numeric post-processing -/

theorem pyTrunc_of_nonneg {x : ℝ} (h : 0 ≤ x) : pyTrunc x = ⌊x⌋ := by
  rw [pyTrunc, if_pos h]

theorem pyTrunc_of_neg {x : ℝ} (h : x < 0) : pyTrunc x = ⌈x⌉ := by
  rw [pyTrunc, if_neg (not_le.mpr h)]

theorem pyTrunc_nonneg {x : ℝ} (h : -1 < x) : 0 ≤ pyTrunc x := by
  by_cases h0 : 0 ≤ x
  · rw [pyTrunc_of_nonneg h0]
    exact Int.le_floor.mpr (by exact_mod_cast h0)
  · rw [pyTrunc_of_neg (not_le.mp h0)]
    have : (-1 : ℤ) < ⌈x⌉ := Int.lt_ceil.mpr (by exact_mod_cast h)
    omega

theorem pyRound_intCast (n : ℤ) : pyRound ((n : ℝ)) = n := by
  rw [pyRound]
  rw [if_pos (by rw [Int.fract_intCast]; norm_num)]
  exact Int.floor_intCast n

theorem pyRound_nonneg {x : ℝ} (h : 0 ≤ x) : 0 ≤ pyRound x := by
  have hf : (0 : ℤ) ≤ ⌊x⌋ := Int.le_floor.mpr (by exact_mod_cast h)
  rw [pyRound]
  split_ifs <;> omega

theorem pyRound4_nonneg {x : ℝ} (h : 0 ≤ x) : 0 ≤ pyRound4 x := by
  rw [pyRound4]
  have : (0 : ℤ) ≤ pyRound (x * 10000) :=
    pyRound_nonneg (by positivity)
  positivity

theorem pyRound4_half : pyRound4 (1 / 2) = 1 / 2 := by
  rw [pyRound4]
  rw [show (1 / 2 : ℝ) * 10000 = ((5000 : ℤ) : ℝ) by norm_num]
  rw [pyRound_intCast]
  norm_num

theorem np_expm1_gt_neg_one (x : ℝ) : -1 < np_expm1 x := by
  have := Real.exp_pos x
  rw [np_expm1]
  linarith

theorem np_expm1_nonneg {x : ℝ} (h : 0 ≤ x) : 0 ≤ np_expm1 x := by
  have := Real.add_one_le_exp x
  rw [np_expm1]
  linarith

theorem exp_half_sq : Real.exp (1 / 2) * Real.exp (1 / 2) = Real.exp 1 := by
  rw [← Real.exp_add]
  norm_num

theorem exp_half_gt : (3 / 2 : ℝ) < Real.exp (1 / 2) := by
  by_contra h
  push_neg at h
  have hpos : (0 : ℝ) ≤ Real.exp (1 / 2) := (Real.exp_pos _).le
  have h9 : Real.exp 1 ≤ 9 / 4 := by
    rw [← exp_half_sq]
    nlinarith
  linarith [Real.exp_one_gt_d9]

theorem exp_half_lt : Real.exp (1 / 2) < 2 := by
  by_contra h
  push_neg at h
  have h4 : (4 : ℝ) ≤ Real.exp 1 := by
    rw [← exp_half_sq]
    nlinarith
  linarith [Real.exp_one_lt_d9]

/-! ### Claim C1 -/

/-- Claim C1, counterexample: at the raw model output `x = 1/2` (which
the 4-decimal pre-rounding leaves unchanged), the code's nightly-price
post-processing `int(np.expm1(round(x, 4)))` yields 0, while the
claimed "exp(x) - 1 rounded to the nearest integer" yields 1 — so the
code truncates toward zero rather than rounding. -/
theorem claim_C1_cex :
    nightlyFromRaw (1 / 2) = 0 ∧ specNightlyFromRaw (1 / 2) = 1 := by
  have hlo : (1 / 2 : ℝ) < Real.exp (1 / 2) - 1 := by
    linarith [exp_half_gt]
  have hhi : Real.exp (1 / 2) - 1 < 1 := by
    linarith [exp_half_lt]
  constructor
  · rw [nightlyFromRaw, pyRound4_half, np_expm1,
      pyTrunc_of_nonneg (by linarith)]
    rw [Int.floor_eq_zero_iff]
    constructor
    · linarith
    · exact hhi
  · rw [specNightlyFromRaw, round_eq]
    rw [show (1 : ℤ) = (1 : ℤ) from rfl]
    apply Int.floor_eq_iff.mpr
    constructor
    · push_cast
      linarith
    · push_cast
      linarith

/-- Claim C1, amended: the nightly-price prediction equals
`exp(round(x, 4)) - 1` truncated toward zero (Python `int`), which for
every non-negative raw output `x` is the floor `⌊exp(round(x, 4)) - 1⌋`
— not the nearest integer. -/
theorem claim_C1_amended (x : ℝ) (hx : 0 ≤ x) :
    nightlyFromRaw x = ⌊Real.exp (pyRound4 x) - 1⌋ := by
  rw [nightlyFromRaw, np_expm1,
    pyTrunc_of_nonneg (by
      have := Real.add_one_le_exp (pyRound4 x)
      have := pyRound4_nonneg hx
      linarith)]

/-- Witness for `claim_C1_amended` at `x = 0`. -/
theorem claim_C1_amended_witness :
    nightlyFromRaw 0 = ⌊Real.exp (pyRound4 0) - 1⌋ :=
  claim_C1_amended 0 le_rfl

/-! ### Claim C6 -/

/-- Claim C6, counterexample: the cleaning-cost and monthly-rent
predictions are the raw model output truncated by `int()` with no
transform, so a raw output of `-3/2` yields the negative prediction
`-1` for both — the claim's "non-negative for every raw output" fails
for these two models. -/
theorem claim_C6_cex :
    cleaningFromRaw (-(3 / 2)) = -1 ∧ rentFromRaw (-(3 / 2)) = -1 := by
  have h : pyTrunc (-(3 / 2) : ℝ) = -1 := by
    rw [pyTrunc_of_neg (by norm_num), Int.ceil_eq_iff]
    constructor <;> norm_num
  exact ⟨h, h⟩

/-- Claim C6, amended: the nightly price is a non-negative integer for
every raw model output (since `expm1 > -1` and `int()` truncates toward
zero), while the cleaning cost and monthly rent are non-negative
whenever the raw model output is non-negative. -/
theorem claim_C6_amended (x : ℝ) :
    0 ≤ nightlyFromRaw x ∧
    (0 ≤ x → 0 ≤ cleaningFromRaw x ∧ 0 ≤ rentFromRaw x) := by
  constructor
  · exact pyTrunc_nonneg (np_expm1_gt_neg_one (pyRound4 x))
  · intro h
    exact ⟨pyTrunc_nonneg (by linarith), pyTrunc_nonneg (by linarith)⟩

/-- Witness for `claim_C6_amended` at `x = 0`. -/
theorem claim_C6_amended_witness :
    0 ≤ nightlyFromRaw 0 ∧ 0 ≤ cleaningFromRaw 0 ∧ 0 ≤ rentFromRaw 0 :=
  ⟨(claim_C6_amended 0).1, ((claim_C6_amended 0).2 le_rfl).1,
    ((claim_C6_amended 0).2 le_rfl).2⟩

/-! ### Success characterization of the builders -/

theorem airbnb_build_ok (schema : List String) (u : Profile)
    (h : okB (build_airbnb_feature_df schema u) = true) :
    build_airbnb_feature_df schema u = .ok (airbnbBuildOr schema u) := by
  cases hf : airbnbFeatFun schema u with
  | error e =>
    rw [build_airbnb_feature_df, hf] at h
    simp [okB, Except.map] at h
  | ok f =>
    rw [build_airbnb_feature_df, hf]
    simp [Except.map, airbnbBuildOr, airbnbFeatOr, hf]

theorem rent_build_ok (u : Profile)
    (h : okB (build_renting_feature_df u) = true) :
    build_renting_feature_df u = .ok (rentBuildOr u) := by
  cases hf : rentFeatFun u with
  | error e =>
    rw [build_renting_feature_df, hf] at h
    simp [okB, Except.map] at h
  | ok f =>
    rw [build_renting_feature_df, hf]
    simp [Except.map, rentBuildOr, hf]

/-! ### Claim C2 -/

/-- Claim C2: both confidence-interval lookups return
`(x - rmse, x + rmse)` with the RMSE selected by the documented
quartile buckets, the interval always brackets the point estimate, and
the two concrete nightly lookups from the spec hold. -/
theorem claim_C2 :
    (∀ x : ℚ,
      ((x < 102 → airbnb_confidence_interval x = (x - 40.20, x + 40.20)) ∧
       (102 ≤ x → x < 151 →
         airbnb_confidence_interval x = (x - 40.44, x + 40.44)) ∧
       (151 ≤ x → x < 239 →
         airbnb_confidence_interval x = (x - 53.07, x + 53.07)) ∧
       (239 ≤ x → airbnb_confidence_interval x = (x - 115.52, x + 115.52))) ∧
      ((x < 560.17 → renting_confidence_interval x = (x - 30.29, x + 30.29)) ∧
       (560.17 ≤ x → x < 1379.23 →
         renting_confidence_interval x = (x - 87.73, x + 87.73)) ∧
       (1379.23 ≤ x → x < 2025.77 →
         renting_confidence_interval x = (x - 159.46, x + 159.46)) ∧
       (2025.77 ≤ x →
         renting_confidence_interval x = (x - 191.43, x + 191.43))) ∧
      (airbnb_confidence_interval x).1 ≤ x ∧
      x ≤ (airbnb_confidence_interval x).2 ∧
      (renting_confidence_interval x).1 ≤ x ∧
      x ≤ (renting_confidence_interval x).2) ∧
    airbnb_confidence_interval 100 = (59.8, 140.2) ∧
    airbnb_confidence_interval 200 = (146.93, 253.07) := by
  constructor
  · intro x
    refine ⟨⟨?_, ?_, ?_, ?_⟩, ⟨?_, ?_, ?_, ?_⟩, ?_, ?_, ?_, ?_⟩
    · intro h
      simp only [airbnb_confidence_interval]
      rw [if_pos h]
    · intro h1 h2
      simp only [airbnb_confidence_interval]
      rw [if_neg (not_lt.mpr h1), if_pos h2]
    · intro h1 h2
      simp only [airbnb_confidence_interval]
      rw [if_neg (not_lt.mpr (by linarith)), if_neg (not_lt.mpr h1), if_pos h2]
    · intro h1
      simp only [airbnb_confidence_interval]
      rw [if_neg (not_lt.mpr (by linarith)), if_neg (not_lt.mpr (by linarith)),
        if_neg (not_lt.mpr h1)]
    · intro h
      simp only [renting_confidence_interval]
      rw [if_pos h]
    · intro h1 h2
      simp only [renting_confidence_interval]
      rw [if_neg (not_lt.mpr h1), if_pos h2]
    · intro h1 h2
      simp only [renting_confidence_interval]
      rw [if_neg (not_lt.mpr (by linarith)), if_neg (not_lt.mpr h1), if_pos h2]
    · intro h1
      simp only [renting_confidence_interval]
      rw [if_neg (not_lt.mpr (by linarith)), if_neg (not_lt.mpr (by linarith)),
        if_neg (not_lt.mpr h1)]
    · simp only [airbnb_confidence_interval]
      split_ifs <;> norm_num
    · simp only [airbnb_confidence_interval]
      split_ifs <;> norm_num
    · simp only [renting_confidence_interval]
      split_ifs <;> norm_num
    · simp only [renting_confidence_interval]
      split_ifs <;> norm_num
  · constructor
    · norm_num [airbnb_confidence_interval]
    · norm_num [airbnb_confidence_interval]

/-- Witness for `claim_C2`: one concrete point inside each of the four
nightly buckets and each of the four rent buckets. -/
theorem claim_C2_witness :
    airbnb_confidence_interval 50 = (50 - 40.20, 50 + 40.20) ∧
    airbnb_confidence_interval 120 = (120 - 40.44, 120 + 40.44) ∧
    airbnb_confidence_interval 200 = (200 - 53.07, 200 + 53.07) ∧
    airbnb_confidence_interval 300 = (300 - 115.52, 300 + 115.52) ∧
    renting_confidence_interval 500 = (500 - 30.29, 500 + 30.29) ∧
    renting_confidence_interval 1000 = (1000 - 87.73, 1000 + 87.73) ∧
    renting_confidence_interval 1500 = (1500 - 159.46, 1500 + 159.46) ∧
    renting_confidence_interval 2100 = (2100 - 191.43, 2100 + 191.43) :=
  ⟨(claim_C2.1 50).1.1 (by norm_num),
   (claim_C2.1 120).1.2.1 (by norm_num) (by norm_num),
   (claim_C2.1 200).1.2.2.1 (by norm_num) (by norm_num),
   (claim_C2.1 300).1.2.2.2 (by norm_num),
   (claim_C2.1 500).2.1.1 (by norm_num),
   (claim_C2.1 1000).2.1.2.1 (by norm_num) (by norm_num),
   (claim_C2.1 1500).2.1.2.2.1 (by norm_num) (by norm_num),
   (claim_C2.1 2100).2.1.2.2.2 (by norm_num)⟩

/-! ### Claim C5 -/

/-- Claim C5, counterexample: the hardcoded monthly-rent schema has 23
columns, not 22 as claimed. -/
theorem claim_C5_cex : rent_features.length ≠ 22 := by decide

/-- Claim C5, amended: the monthly-rent feature builder uses a
hardcoded schema of exactly 23 columns — 1 room-count numeric column,
then 20 arrondissement one-hot columns, then 2 furnished/unfurnished
one-hot columns — and every successfully built vector has exactly those
columns in that fixed order. -/
theorem claim_C5_amended :
    rent_features.length = 23 ∧
    rent_features.headI = "Nombre de pièces principales" ∧
    ((rent_features.drop 1).take 20).all
      (fun c => pyStartsWith c "Arrondissement_") = true ∧
    List.Perm ((rent_features.drop 1).take 20) ARRONDISSEMENT_COLUMNS ∧
    rent_features.drop 21 =
      ["Type de locationom_meublé", "Type de locationom_non meublé"] ∧
    ∀ u : Profile, okB (build_renting_feature_df u) = true →
      build_renting_feature_df u = .ok (rentBuildOr u) ∧
      (rentBuildOr u).cols = rent_features := by
  refine ⟨by decide, by decide, by decide, by decide, by decide, ?_⟩
  intro u h
  exact ⟨rent_build_ok u h, rfl⟩

/-- Witness for `claim_C5_amended` on the empty profile. -/
theorem claim_C5_witness :
    build_renting_feature_df emptyProfile = .ok (rentBuildOr emptyProfile) ∧
    (rentBuildOr emptyProfile).cols = rent_features :=
  claim_C5_amended.2.2.2.2.2 emptyProfile (by decide)

/-! ### Claim C10 -/

/-- Claim C10 (implicit): with an arrondissement value that `int()`
cannot coerce (the non-numeric string "center"), both feature builders
raise instead of recovering with the all-zero location encoding — the
documented out-of-range recovery only applies to `int()`-coercible
values. -/
theorem claim_C10 :
    strArrProfile "arrondissement" = some (.str "center") ∧
    okB (pyInt (.str "center")) = false ∧
    okB (build_airbnb_feature_df demoSchema strArrProfile) = false ∧
    okB (build_renting_feature_df strArrProfile) = false := by
  decide

theorem except_bind_ok {α β : Type} (a : α) (f : α → Except String β) :
    (Except.ok a >>= f) = f a := rfl

theorem except_bind_error {α β : Type} (e : String)
    (f : α → Except String β) :
    ((Except.error e : Except String α) >>= f) = .error e := rfl

/-! ### Claim C8 -/

/-- Claim C8: the monthly-rent builder copies the profile's room-count
value into the `Nombre de pièces principales` column with no default —
an integer `k` lands as `k`, and an absent key lands as missing/null
(`None`), never as a substituted default. -/
theorem claim_C8 (u : Profile) (k : ℤ)
    (hok : okB (build_renting_feature_df u) = true) :
    (u "Number of rooms renting" = some (.int k) →
      (rentBuildOr u).val "Nombre de pièces principales" = .int k) ∧
    (u "Number of rooms renting" = Option.none →
      (rentBuildOr u).val "Nombre de pièces principales" = .none) := by
  cases harr : pyInt ((u "arrondissement").getD (.int 1)) with
  | error e =>
    rw [build_renting_feature_df, rentFeatFun] at hok
    simp [harr, okB, Except.map, except_bind_error] at hok
  | ok n =>
    constructor <;> intro h <;>
      simp [rentBuildOr, rentFeatFun, harr, except_bind_ok, DF.setCol_val, h]

/-! ### Claim C9 -/

theorem okB_build_airbnb (schema : List String) (u : Profile) :
    okB (build_airbnb_feature_df schema u) = okB (airbnbFeatFun schema u) := by
  cases h : airbnbFeatFun schema u <;>
    simp [build_airbnb_feature_df, h, Except.map, okB]

theorem okB_build_rent (u : Profile) :
    okB (build_renting_feature_df u) = okB (rentFeatFun u) := by
  cases h : rentFeatFun u <;>
    simp [build_renting_feature_df, h, Except.map, okB]

/-- No arrondissement one-hot column collides with any other column
name written by either feature builder. -/
theorem arrCols_props : ∀ c ∈ ARRONDISSEMENT_COLUMNS,
    pyStartsWith c "amenity__" = false ∧
    (∀ rt ∈ roomTypes, "room_" ++ rt ≠ c) ∧
    (c ≠ "host_is_superhost" ∧ c ≠ "host_listings_count" ∧
     c ≠ "host_identity_verified" ∧ c ≠ "bathrooms_text" ∧
     c ≠ "bedrooms") ∧
    (c ≠ "Nombre de pièces principales" ∧
     c ≠ "Type de locationom_meublé" ∧
     c ≠ "Type de locationom_non meublé") := by
  decide

theorem arrLookup_none_of_out (n : ℤ) (h : n < 1 ∨ 20 < n) :
    arrLookup n = Option.none := by
  rw [arrLookup, List.find?_eq_none.mpr, Option.map_none']
  intro p hp
  fin_cases hp <;> simp <;> omega

theorem amen_map_val_startsWith (schema : List String) (lab mc : String)
    (h : dictLookup (build_amenity_maps schema).1 lab = some mc) :
    pyStartsWith mc "amenity__" = true := by
  simp only [build_amenity_maps, dictLookup] at h
  rcases Option.map_eq_some'.mp h with ⟨p, hfind, hp2⟩
  have hmem := List.mem_of_find?_eq_some hfind
  rcases foldl_dictInsert_mem
      (f := clean_amenity_name) (g := fun c => c) _ _ _ hmem with h' | ⟨a, ha, hpa⟩
  · cases h'
  · have : p.2 = a := by rw [hpa]
    rw [← hp2, this]
    exact (List.mem_filter.mp ha).2

theorem airbnbBasics_val_ne (schema : List String)
    (superhost listings identity baths beds : ℤ) (c : String)
    (h1 : c ≠ "host_is_superhost") (h2 : c ≠ "host_listings_count")
    (h3 : c ≠ "host_identity_verified") (h4 : c ≠ "bathrooms_text")
    (h5 : c ≠ "bedrooms") :
    (airbnbBasics schema superhost listings identity baths beds).val c =
      .int 0 := by
  simp [airbnbBasics, DF.setCol_val, h1, h2, h3, h4, h5]

theorem airbnbArrStep_of_none {arrNum : ℤ} (d : DF)
    (h : arrLookup arrNum = Option.none) : airbnbArrStep d arrNum = d := by
  rw [airbnbArrStep, h]

theorem airbnbRoomStep_val_ne (d : DF) (roomType : PyVal) (c : String)
    (h : ∀ rt ∈ roomTypes, "room_" ++ rt ≠ c) :
    (airbnbRoomStep d roomType).val c = d.val c := by
  refine foldl_preserve_val roomTypes _ c (fun d' rt hrt => ?_) d
  rw [DF.setColG_val, if_neg]
  rintro ⟨hceq, _⟩
  exact h rt hrt hceq.symm

theorem airbnbAmenStep_val_ne (schema : List String) (d : DF)
    (labels : List String) (c : String)
    (h : pyStartsWith c "amenity__" = false) :
    (airbnbAmenStep schema d labels).val c = d.val c := by
  refine foldl_preserve_val labels _ c (fun d' lab _ => ?_) d
  cases hmc : dictLookup (build_amenity_maps schema).1 lab with
  | none => rfl
  | some mc =>
    show (d'.setColG mc (PyVal.int 1)).val c = d'.val c
    rw [DF.setColG_val, if_neg]
    rintro ⟨hceq, _⟩
    have hsw := amen_map_val_startsWith schema lab mc hmc
    rw [← hceq] at hsw
    simp [h] at hsw

/-- Claim C9, counterexample: a profile whose arrondissement is the
out-of-range integer 25 but whose listings count is a non-numeric
string makes the nightly builder raise, so "every profile whose
arrondissement is an out-of-range integer returns successfully" fails
as universally stated. -/
theorem claim_C9_cex :
    badProfile "arrondissement" = some (.int 25) ∧ (20 : ℤ) < 25 ∧
    okB (build_airbnb_feature_df demoSchema badProfile) = false := by
  decide

/-- Claim C9, amended: an out-of-range integer arrondissement never
itself causes an error — the monthly-rent builder then always succeeds,
the nightly builder succeeds unless some other field fails coercion,
and every successfully built vector has all 20 arrondissement one-hot
columns at 0. -/
theorem claim_C9_amended (schema : List String) (u : Profile) (n : ℤ)
    (h1 : u "arrondissement" = some (.int n)) (h2 : n < 1 ∨ 20 < n) :
    (okB (build_airbnb_feature_df schema u) = true →
      ∀ c ∈ ARRONDISSEMENT_COLUMNS,
        (airbnbBuildOr schema u).val c = .int 0) ∧
    okB (build_renting_feature_df u) = true ∧
    (∀ c ∈ ARRONDISSEMENT_COLUMNS, (rentBuildOr u).val c = .int 0) := by
  have harrL : arrLookup n = Option.none := arrLookup_none_of_out n h2
  have harr : pyInt ((u "arrondissement").getD (.int 1)) = .ok n := by
    rw [h1]; rfl
  refine ⟨?_, ?_, ?_⟩
  · intro hok c hc
    obtain ⟨hp1, hp2, ⟨hb1, hb2, hb3, hb4, hb5⟩, _⟩ := arrCols_props c hc
    rw [okB_build_airbnb, airbnbFeatFun] at hok
    cases hl : pyInt ((u "host_listings_count").getD (.int 0)) with
    | error e => rw [hl] at hok; simp [except_bind_error, okB] at hok
    | ok listings =>
    rw [hl, except_bind_ok] at hok
    cases hba : pyInt ((u "bathrooms").getD (.int 1)) with
    | error e => rw [hba] at hok; simp [except_bind_error, okB] at hok
    | ok baths =>
    rw [hba, except_bind_ok] at hok
    cases hbe : pyInt ((u "bedrooms").getD (.int 1)) with
    | error e => rw [hbe] at hok; simp [except_bind_error, okB] at hok
    | ok beds =>
    rw [hbe, except_bind_ok] at hok
    cases hlab : getAmenities u with
    | error e => rw [harr, except_bind_ok, hlab] at hok; simp [except_bind_error, okB] at hok
    | ok labels =>
    simp only [airbnbBuildOr, airbnbFeatOr, airbnbFeatFun, hl, hba, hbe,
      harr, hlab, except_bind_ok]
    rw [airbnbCore, airbnbAmenStep_val_ne _ _ _ _ hp1,
      airbnbRoomStep_val_ne _ _ _ hp2, airbnbArrStep_of_none _ harrL,
      airbnbBasics_val_ne _ _ _ _ _ _ _ hb1 hb2 hb3 hb4 hb5]
  · rw [okB_build_rent, rentFeatFun]
    rw [harr, except_bind_ok]
    rfl
  · intro c hc
    obtain ⟨_, _, _, hr1, hr2, hr3⟩ := arrCols_props c hc
    simp only [rentBuildOr, rentFeatFun, harr, except_bind_ok, harrL]
    rw [DF.setCol_val, if_neg hr3, DF.setCol_val, if_neg hr2,
      DF.setCol_val, if_neg hr1]

/-- Witness for `claim_C9_amended` on a profile whose only key is the
out-of-range arrondissement 25, checked at column `Arrondissement_5e`. -/
theorem claim_C9_witness :
    (airbnbBuildOr demoSchema arr25Profile).val "Arrondissement_5e" = .int 0 ∧
    okB (build_renting_feature_df arr25Profile) = true ∧
    (rentBuildOr arr25Profile).val "Arrondissement_5e" = .int 0 :=
  ⟨(claim_C9_amended demoSchema arr25Profile 25 (by decide) (by decide)).1
      (by decide) "Arrondissement_5e" (by decide),
   (claim_C9_amended demoSchema arr25Profile 25 (by decide) (by decide)).2.1,
   (claim_C9_amended demoSchema arr25Profile 25 (by decide) (by decide)).2.2
      "Arrondissement_5e" (by decide)⟩

/-- Witness for `claim_C8` on a profile supplying room count 3 and on
the empty profile. -/
theorem claim_C8_witness :
    (rentBuildOr roomsProfile).val "Nombre de pièces principales" = .int 3 ∧
    (rentBuildOr emptyProfile).val "Nombre de pièces principales" = .none :=
  ⟨(claim_C8 roomsProfile 3 (by decide)).1 (by decide),
   (claim_C8 emptyProfile 0 (by decide)).2 (by decide)⟩

/-! ### Claim C7 -/

/-- Claim C7, counterexample: a schema whose two amenity columns
normalize to the same label ("Wifi") breaks the bijection — the dict
comprehension for `label_to_col` keeps only the last writer, so it has
1 entry while the schema has 2 amenity columns. -/
theorem claim_C7_cex :
    ((["amenity__wifi", "amenity__wifi_"] : List String).filter
      (fun c => pyStartsWith c "amenity__")).length = 2 ∧
    (build_amenity_maps ["amenity__wifi", "amenity__wifi_"]).1.length = 1 := by
  decide

/-- Claim C7, amended: provided the derived labels of the N amenity
columns are pairwise distinct (no normalization collisions),
`label_to_col` and `col_to_label` each have exactly N entries and are
mutual inverses. -/
theorem claim_C7_amended (fl : List String)
    (hnd : ((fl.filter (fun c => pyStartsWith c "amenity__")).map
      clean_amenity_name).Nodup) :
    (build_amenity_maps fl).1.length =
      (fl.filter (fun c => pyStartsWith c "amenity__")).length ∧
    (build_amenity_maps fl).2.length =
      (fl.filter (fun c => pyStartsWith c "amenity__")).length ∧
    ((build_amenity_maps fl).1.all
      (fun p => dictLookup (build_amenity_maps fl).2 p.2 == some p.1)) = true ∧
    ((build_amenity_maps fl).2.all
      (fun p => dictLookup (build_amenity_maps fl).1 p.2 == some p.1)) = true := by
  have hcsnd : (fl.filter (fun c => pyStartsWith c "amenity__")).Nodup :=
    List.Nodup.of_map _ hnd
  have h1 : (build_amenity_maps fl).1 =
      (fl.filter (fun c => pyStartsWith c "amenity__")).map
        (fun c => (clean_amenity_name c, c)) := by
    simp only [build_amenity_maps]
    have := foldl_dictInsert_eq_map clean_amenity_name (fun c => c)
      (fl.filter (fun c => pyStartsWith c "amenity__")) [] hnd (by simp)
    simpa using this
  have h2 : (build_amenity_maps fl).2 =
      (fl.filter (fun c => pyStartsWith c "amenity__")).map
        (fun c => (c, clean_amenity_name c)) := by
    simp only [build_amenity_maps]
    have := foldl_dictInsert_eq_map (fun c => c) clean_amenity_name
      (fl.filter (fun c => pyStartsWith c "amenity__")) []
      (by simpa using hcsnd) (by simp)
    simpa using this
  refine ⟨by rw [h1, List.length_map], by rw [h2, List.length_map], ?_, ?_⟩
  · rw [List.all_eq_true]
    intro p hp
    rw [h1] at hp
    rcases List.mem_map.mp hp with ⟨a, ha, hpa⟩
    rw [← hpa]
    rw [h2, dictLookup_col_map _ a ha hcsnd]
    simp
  · rw [List.all_eq_true]
    intro p hp
    rw [h2] at hp
    rcases List.mem_map.mp hp with ⟨a, ha, hpa⟩
    rw [← hpa]
    rw [h1, dictLookup_label_map _ a ha hnd]
    simp

/-- Witness for `claim_C7_amended` on a three-column schema with two
distinct amenity columns. -/
theorem claim_C7_witness :
    (build_amenity_maps ["amenity__wifi", "bedrooms", "amenity__tv"]).1.length =
      ((["amenity__wifi", "bedrooms", "amenity__tv"] : List String).filter
        (fun c => pyStartsWith c "amenity__")).length ∧
    (build_amenity_maps ["amenity__wifi", "bedrooms", "amenity__tv"]).2.length =
      ((["amenity__wifi", "bedrooms", "amenity__tv"] : List String).filter
        (fun c => pyStartsWith c "amenity__")).length ∧
    ((build_amenity_maps ["amenity__wifi", "bedrooms", "amenity__tv"]).1.all
      (fun p => dictLookup
        (build_amenity_maps ["amenity__wifi", "bedrooms", "amenity__tv"]).2
        p.2 == some p.1)) = true ∧
    ((build_amenity_maps ["amenity__wifi", "bedrooms", "amenity__tv"]).2.all
      (fun p => dictLookup
        (build_amenity_maps ["amenity__wifi", "bedrooms", "amenity__tv"]).1
        p.2 == some p.1)) = true :=
  claim_C7_amended ["amenity__wifi", "bedrooms", "amenity__tv"] (by decide)

/-! ### Claim C3 -/

theorem medianCol_mem : medianCol ∈ ARRONDISSEMENT_COLUMNS := by decide

/-- Claim C3: on any successful build over a schema containing the 20
arrondissement columns and the four quality columns,
`calculate_price_impact_kpis` returns
`location_impact = p - median_location_price` and
`quality_impact = median_location_price - baseline_price`, where the
median-location price is predicted from the user's vector re-encoded to
the reference arrondissement (all other features identical) and the
baseline price from that vector with neutral quality values and all
amenity-catalog columns zeroed. -/
theorem claim_C3 (priceM : Model) (schema : List String) (u : Profile)
    (p : ℤ)
    (hok : okB (build_airbnb_feature_df schema u) = true)
    (harr : ∀ c ∈ ARRONDISSEMENT_COLUMNS, c ∈ schema)
    (hq1 : "host_is_superhost" ∈ schema)
    (hq2 : "host_listings_count" ∈ schema)
    (hq3 : "bedrooms" ∈ schema) (hq4 : "bathrooms_text" ∈ schema) :
    calculate_price_impact_kpis priceM schema u p = .ok
      { location_impact := p -
          priceOfLog (priceM (medianLocationDF (airbnbBuildOr schema u)).row)
        quality_impact :=
          priceOfLog (priceM (medianLocationDF (airbnbBuildOr schema u)).row) -
          priceOfLog (priceM (baselineDF schema (airbnbBuildOr schema u)).row)
        median_location_price :=
          priceOfLog (priceM (medianLocationDF (airbnbBuildOr schema u)).row)
        baseline_price :=
          priceOfLog (priceM (baselineDF schema (airbnbBuildOr schema u)).row) } := by
  have hb := airbnb_build_ok schema u hok
  set B := airbnbBuildOr schema u with hB
  have hBcols : B.cols = schema := rfl
  simp only [calculate_price_impact_kpis, hb, except_bind_ok]
  set dfM : DF := (zeroCols B ARRONDISSEMENT_COLUMNS).setCol medianCol
    (.int 1) with hdfM
  set dfB0 : DF := (((dfM.setCol "host_is_superhost" (.int 0)).setCol
    "host_listings_count" (.int 1)).setCol "bedrooms" (.int 1)).setCol
    "bathrooms_text" (.int 1) with hdfB0
  set amenityVals : List String :=
    (build_amenity_maps schema).1.map (fun q => q.2) with hAV
  have hmedcols : (medianLocationDF B).cols = schema := hBcols
  have hbasecols : (baselineDF schema B).cols = schema := hBcols
  have hzc : (zeroCols B ARRONDISSEMENT_COLUMNS).cols = schema := by
    rw [zeroCols_cols _ _ (fun c hc => by rw [hBcols]; exact harr c hc),
      hBcols]
  have hdfMcols : dfM.cols = schema := by
    rw [hdfM, DF.setCol_cols_of_mem _
      (by rw [hzc]; exact harr medianCol medianCol_mem), hzc]
  have c1 : (dfM.setCol "host_is_superhost" (.int 0)).cols = schema := by
    rw [DF.setCol_cols_of_mem _ (by rw [hdfMcols]; exact hq1), hdfMcols]
  have c2 : ((dfM.setCol "host_is_superhost" (.int 0)).setCol
      "host_listings_count" (.int 1)).cols = schema := by
    rw [DF.setCol_cols_of_mem _ (by rw [c1]; exact hq2), c1]
  have c3 : (((dfM.setCol "host_is_superhost" (.int 0)).setCol
      "host_listings_count" (.int 1)).setCol "bedrooms" (.int 1)).cols =
      schema := by
    rw [DF.setCol_cols_of_mem _ (by rw [c2]; exact hq3), c2]
  have hdfB0cols : dfB0.cols = schema := by
    rw [hdfB0, DF.setCol_cols_of_mem _ (by rw [c3]; exact hq4), c3]
  have hmval : ∀ c, dfM.val c = (medianLocationDF B).val c := by
    intro c
    rw [hdfM, DF.setCol_val, zeroCols_val]
    rfl
  have hm_row : dfM.row = (medianLocationDF B).row := by
    refine row_congr ?_ (fun c _ => hmval c)
    rw [hdfMcols, hmedcols]
  have hb0val : ∀ c, dfB0.val c =
      (if c = "bathrooms_text" then PyVal.int 1
       else if c = "bedrooms" then PyVal.int 1
       else if c = "host_listings_count" then PyVal.int 1
       else if c = "host_is_superhost" then PyVal.int 0
       else (medianLocationDF B).val c) := by
    intro c
    rw [hdfB0, DF.setCol_val, DF.setCol_val, DF.setCol_val, DF.setCol_val,
      hmval c]
  have hbval : ∀ c, c ∈ schema →
      (zeroColsG dfB0 amenityVals).val c = (baselineDF schema B).val c := by
    intro c hc
    have hcc : c ∈ dfB0.cols := by rw [hdfB0cols]; exact hc
    rw [zeroColsG_val]
    by_cases ham : c ∈ amenityVals
    · rw [if_pos ⟨ham, hcc⟩]
      rw [hAV] at ham
      simp only [baselineDF]
      rw [if_pos ham]
    · have ham' : ¬ c ∈ List.map (fun q => q.2) (build_amenity_maps schema).1 :=
        ham
      rw [if_neg (fun hcon => ham hcon.1), hb0val c]
      simp only [baselineDF]
      rw [if_neg ham']
  have hb_row : (zeroColsG dfB0 amenityVals).row = (baselineDF schema B).row := by
    refine row_congr ?_ (fun c hc => hbval c (by rw [← hbasecols]; exact hc))
    rw [zeroColsG_cols, hdfB0cols, hbasecols]
  rw [hm_row, hb_row]

/-- Witness for `claim_C3` on the demo schema, empty profile, the
all-zero model and actual price 0. -/
theorem claim_C3_witness :
    calculate_price_impact_kpis zeroModel demoSchema emptyProfile 0 = .ok
      { location_impact := 0 -
          priceOfLog (zeroModel (medianLocationDF
            (airbnbBuildOr demoSchema emptyProfile)).row)
        quality_impact :=
          priceOfLog (zeroModel (medianLocationDF
            (airbnbBuildOr demoSchema emptyProfile)).row) -
          priceOfLog (zeroModel (baselineDF demoSchema
            (airbnbBuildOr demoSchema emptyProfile)).row)
        median_location_price :=
          priceOfLog (zeroModel (medianLocationDF
            (airbnbBuildOr demoSchema emptyProfile)).row)
        baseline_price :=
          priceOfLog (zeroModel (baselineDF demoSchema
            (airbnbBuildOr demoSchema emptyProfile)).row) } :=
  claim_C3 zeroModel demoSchema emptyProfile 0 (by decide) (by decide)
    (by decide) (by decide) (by decide) (by decide)

/-! ### Claim C4 -/

theorem getD_map_lt {α β : Type} (l : List α) (f : α → β) :
    ∀ (i : ℕ), i < l.length → ∀ (da : α) (db : β),
      (l.map f).getD i db = f (l.getD i da) := by
  induction l with
  | nil => intro i hi; cases hi
  | cons a l ih =>
    intro i hi da db
    cases i with
    | zero => rfl
    | succ n =>
      show (l.map f).getD n db = f (l.getD n da)
      exact ih n (by simpa using Nat.lt_of_succ_lt_succ hi) da db

/-- The `i`-th entry of `ARRONDISSEMENT_MAP` is arrondissement `i + 1`
with its one-hot column. -/
theorem arr_map_props : ∀ i : Fin 20,
    (ARRONDISSEMENT_MAP.getD i.1 (0, "")).1 = (i.1 : ℤ) + 1 ∧
    (ARRONDISSEMENT_MAP.getD i.1 (0, "")).2 = arrColOf ((i.1 : ℤ) + 1) ∧
    (ARRONDISSEMENT_MAP.getD i.1 (0, "")).2 ∈ ARRONDISSEMENT_COLUMNS := by
  decide

/-- The sweep re-encoding is an exact one-hot on the arrondissement
columns: the target column is 1, every other arrondissement column 0. -/
theorem sweepVec_val (base : DF) (c' : String)
    (hc' : c' ∈ ARRONDISSEMENT_COLUMNS)
    (hsub : ∀ c ∈ ARRONDISSEMENT_COLUMNS, c ∈ base.cols)
    (c : String) (hc : c ∈ ARRONDISSEMENT_COLUMNS) :
    (sweepVec base c').val c = if c = c' then PyVal.int 1 else PyVal.int 0 := by
  rw [sweepVec, DF.setColG_val, zeroColsG_cols]
  by_cases h : c = c'
  · rw [if_pos ⟨h, hsub c' hc'⟩, if_pos h]
  · rw [if_neg (fun hcon => h hcon.1), if_neg h, zeroColsG_val,
      if_pos ⟨hc, hsub c hc⟩]

/-- Claim C4: on any successful build over a schema containing the 20
arrondissement columns, `predict_all_arrondissement_prices` returns
exactly 20 rows, the `i`-th row carrying arrondissement number `i + 1`
and the prediction scored on the re-encoded vector whose only nonzero
arrondissement column is that arrondissement's — the other 19 are 0. -/
theorem claim_C4 (priceM : Model) (schema : List String) (u : Profile)
    (hok : okB (build_airbnb_feature_df schema u) = true)
    (harr : ∀ c ∈ ARRONDISSEMENT_COLUMNS, c ∈ schema) :
    predict_all_arrondissement_prices priceM schema u =
      .ok (predictAllOr priceM schema u) ∧
    (predictAllOr priceM schema u).length = 20 ∧
    ∀ i : Fin 20,
      ((predictAllOr priceM schema u).getD i.1 dummySweepRow).number =
        (i.1 : ℤ) + 1 ∧
      ((predictAllOr priceM schema u).getD i.1 dummySweepRow).price =
        priceOfLog (priceM (sweepVec (airbnbBuildOr schema u)
          (arrColOf ((i.1 : ℤ) + 1))).row) ∧
      ∀ c ∈ ARRONDISSEMENT_COLUMNS,
        (sweepVec (airbnbBuildOr schema u) (arrColOf ((i.1 : ℤ) + 1))).val c =
          (if c = arrColOf ((i.1 : ℤ) + 1) then PyVal.int 1
           else PyVal.int 0) := by
  have hb := airbnb_build_ok schema u hok
  have hpred : predict_all_arrondissement_prices priceM schema u =
      .ok (ARRONDISSEMENT_MAP.map (fun nc =>
        { code := toString (inseeLookup nc.1)
          price := priceOfLog
            (priceM (sweepVec (airbnbBuildOr schema u) nc.2).row)
          number := nc.1 })) := by
    simp only [predict_all_arrondissement_prices, hb, except_bind_ok]
  have hOr : predictAllOr priceM schema u =
      ARRONDISSEMENT_MAP.map (fun nc =>
        { code := toString (inseeLookup nc.1)
          price := priceOfLog
            (priceM (sweepVec (airbnbBuildOr schema u) nc.2).row)
          number := nc.1 }) := by
    rw [predictAllOr, hpred]
  have hsub : ∀ c ∈ ARRONDISSEMENT_COLUMNS,
      c ∈ (airbnbBuildOr schema u).cols := fun c hc => harr c hc
  refine ⟨by rw [hpred, hOr], by rw [hOr]; rfl, ?_⟩
  intro i
  have h20 : ARRONDISSEMENT_MAP.length = 20 := rfl
  have hlen : i.1 < ARRONDISSEMENT_MAP.length := by rw [h20]; exact i.2
  obtain ⟨hp1, hp2, hp3⟩ := arr_map_props i
  rw [hOr, getD_map_lt ARRONDISSEMENT_MAP _ i.1 hlen (0, "") dummySweepRow]
  refine ⟨hp1, ?_, ?_⟩
  · show priceOfLog (priceM (sweepVec (airbnbBuildOr schema u)
      (ARRONDISSEMENT_MAP.getD i.1 (0, "")).2).row) = _
    rw [hp2]
  · intro c hc
    exact sweepVec_val (airbnbBuildOr schema u) _ (hp2 ▸ hp3) hsub c hc

/-- Witness for `claim_C4` on the demo schema, empty profile and the
all-zero model, checked at the first sweep row. -/
theorem claim_C4_witness :
    (predictAllOr zeroModel demoSchema emptyProfile).length = 20 ∧
    ((predictAllOr zeroModel demoSchema emptyProfile).getD 0
      dummySweepRow).number = 1 ∧
    (sweepVec (airbnbBuildOr demoSchema emptyProfile)
      (arrColOf 1)).val "Arrondissement_1er" = .int 1 ∧
    (sweepVec (airbnbBuildOr demoSchema emptyProfile)
      (arrColOf 1)).val "Arrondissement_2e" = .int 0 := by
  have h := claim_C4 zeroModel demoSchema emptyProfile (by decide) (by decide)
  have h0 := h.2.2 ⟨0, by norm_num⟩
  have hnum := h0.1
  have hoh1 := h0.2.2 "Arrondissement_1er" (by decide)
  have hoh2 := h0.2.2 "Arrondissement_2e" (by decide)
  norm_num at hnum hoh1 hoh2
  refine ⟨h.2.1, hnum, ?_, ?_⟩
  · rw [hoh1, if_pos (by decide)]
  · rw [hoh2, if_neg (by decide)]
